import Mathlib

/-!
# Snapmaker2-Controller: the `M2002` G-code handler

A shallow embedding of `GcodeSuite::M2002` (`snapmaker/src/gcode/M2002.cpp`).

The handler reads the parsed command from the global `parser`, talks to the
global `laser` proxy and writes lines to the serial / log sinks.  Here the
parser state and the values the proxy getters hand back are inputs, and the
proxy calls and output lines the handler performs are returned as one trace,
in program order.

Integers are `Nat` with the C casts written as explicit `% 2^w`.  Floats are
only passed through (never computed with); they are carried as the rational
they denote.
-/

namespace Snapmaker

/-! ## Collaborators declared outside `M2002.cpp` -/

/-- Modelled from the spec: the toolhead kinds `ModuleBase::toolhead()` can report
(`enum ToolHead`, declared in `module_base.h`).  `M2002.cpp` names only
`MODULE_TOOLHEAD_LASER`; the others are the "module kinds" the guard is
compared against (3D-printing, CNC, and the 10W/20W/40W lasers of the header
comment). -/
inductive ToolHead where
  | MODULE_TOOLHEAD_UNKNOW
  | MODULE_TOOLHEAD_3DP
  | MODULE_TOOLHEAD_CNC
  | MODULE_TOOLHEAD_LASER
  | MODULE_TOOLHEAD_LASER_10W
  | MODULE_TOOLHEAD_DUALEXTRUDER
  | MODULE_TOOLHEAD_LASER_20W
  | MODULE_TOOLHEAD_LASER_40W
  deriving DecidableEq, Repr

/-- Status code returned by the proxy (`ErrCode`). -/
abbrev ErrCode := Nat

/-- Modelled from the spec: the success status (`E_SUCCESS`, declared in `error.h`);
every other status is a failure. -/
def E_SUCCESS : ErrCode := 0

/-- The record `SSTP_Event_t`.  `data` is a pointer in the source: `none` is `NULL`,
`some bs` is a pointer to an object whose bytes in memory are `bs`. -/
structure SSTP_Event_t where
  op_code : Nat
  id : Nat
  length : Nat
  data : Option (List Nat)
  deriving DecidableEq, Repr

/-- The readings of one parameter value, one per accessor of the parser
(`value_byte`, `value_ushort`, `value_ulong`, `value_float`). -/
structure ParamValue where
  value_byte : Nat
  value_ushort : Nat
  value_ulong : Nat
  value_float : Rat
  deriving DecidableEq, Repr

/-- How one parameter letter occurs in a command: not at all, as a bare letter, or
with a value. -/
inductive Param where
  | absent
  | bare
  | val (v : ParamValue)
  deriving DecidableEq, Repr

/-- Modelled from the spec: the parameter source (`GCodeParser`, the global `parser`),
which is not part of `M2002.cpp`: "was parameter X present?" and "value of X,
or default" queries keyed by a single character.  `M2002` uses two presence
queries, `seen` and `seenval`; as in the Marlin parser the firmware builds
on, `seenval` asks in addition that the letter carries a value, and the
`...val(c, dval)` accessors give `dval` unless it does. -/
structure GCodeParser where
  param : Char → Param

namespace GCodeParser

/-- Query `parser.seen(c)`: the letter occurs in the command. -/
def seen (p : GCodeParser) (c : Char) : Bool :=
  match p.param c with
  | .absent => false
  | .bare => true
  | .val _ => true

/-- Query `parser.seenval(c)`: the letter occurs and carries a value. -/
def seenval (p : GCodeParser) (c : Char) : Bool :=
  match p.param c with
  | .absent => false
  | .bare => false
  | .val _ => true

/-- Query `parser.byteval(c, dval)`: the value as `uint8_t`, else `dval`. -/
def byteval (p : GCodeParser) (c : Char) (dval : Nat) : Nat :=
  match p.param c with
  | .val v => v.value_byte % 256
  | _ => dval

/-- Query `parser.ushortval(c, dval)`: the value as `uint16_t`, else `dval`. -/
def ushortval (p : GCodeParser) (c : Char) (dval : Nat) : Nat :=
  match p.param c with
  | .val v => v.value_ushort % 65536
  | _ => dval

/-- Query `parser.ulongval(c, dval)`: the value as `uint32_t`, else `dval`. -/
def ulongval (p : GCodeParser) (c : Char) (dval : Nat) : Nat :=
  match p.param c with
  | .val v => v.value_ulong % 4294967296
  | _ => dval

/-- Query `parser.floatval(c, dval)`: the value as `float`, else `dval`. -/
def floatval (p : GCodeParser) (c : Char) (dval : Rat) : Rat :=
  match p.param c with
  | .val v => v.value_float
  | _ => dval

end GCodeParser

/-- What the getters of the `laser` proxy hand back when called: the status and the
out-parameters they fill.  (The results of the other proxy methods are
discarded by `M2002`.) -/
structure ToolHeadLaser where
  GetCrossLightCAN : ErrCode × Bool
  GetFireSensorSensitivityCAN : ErrCode × Nat
  GetCrossLightOffsetCAN : ErrCode × Rat × Rat
  GetCrosslightOffset : ErrCode × SSTP_Event_t

/-- A call on the `laser` proxy with the arguments passed in.  The out-parameters of
the getters (`sw`, `fss`, `x`, `y`, and the record `e` of
`GetCrosslightOffset`, none of which `M2002` assigns before the call) are
results, not arguments. -/
inductive Call where
  | GetSecurityStatus (event : SSTP_Event_t)
  | TellSecurityStatus
  | SetAutoFocusLight (event : SSTP_Event_t)
  | SetOnlineSyncId (event : SSTP_Event_t)
  | GetOnlineSyncId (event : SSTP_Event_t)
  | PrintInfo
  | SetOutput (power : Rat)
  | SetFanPower (fs : Nat)
  | SetCrossLightCAN (sw : Nat)
  | GetCrossLightCAN
  | SetFireSensorSensitivityCAN (fss : Nat)
  | GetFireSensorSensitivityCAN
  | SetCrossLightOffsetCAN (x y : Rat)
  | GetCrossLightOffsetCAN
  | SetFireSensorReportTime (itv : Nat)
  | GetCrosslightOffset
  deriving DecidableEq, Repr

/-- An argument of a formatted log line. -/
inductive LogArg where
  | int (n : Nat)
  | float (x : Rat)
  deriving DecidableEq, Repr

/-- A line written by `M2002`: `SERIAL_ECHOLN(s)`, `LOG_I(fmt, args...)` or
`LOG_E(fmt)`. -/
inductive LogLine where
  | SERIAL_ECHOLN (s : String)
  | LOG_I (fmt : String) (args : List LogArg)
  | LOG_E (fmt : String)
  deriving DecidableEq, Repr

/-- One observable step of the handler. -/
inductive Effect where
  | call (c : Call)
  | log (l : LogLine)
  deriving DecidableEq, Repr

/-- The bytes of a `uint32_t` object as they lie in memory, lowest address first.  The
controller is a little-endian ARM Cortex-M, so this is what `(uint8_t *)&id`
points to. -/
def bytesOfUInt32 (id : Nat) : List Nat :=
  [id % 256, id / 256 % 256, id / 65536 % 256, id / 16777216 % 256]

/-! ## The handler -/

/-- The handler `GcodeSuite::M2002()`: the trace of proxy calls and output lines, in
program order. -/
def M2002 (toolhead : ToolHead) (parser : GCodeParser) (laser : ToolHeadLaser) :
    List Effect :=
  if toolhead = ToolHead.MODULE_TOOLHEAD_LASER then
    []
  else
    let seen_s := parser.seen 'S'
    let tr_s : List Effect :=
      if seen_s then
        let state := parser.byteval 'S' 0 % 256
        if state ≠ 0 then
          let event : SSTP_Event_t := { op_code := 2, data := none, length := 0, id := 9 }
          [.log (.SERIAL_ECHOLN "Get security status"), .call (.GetSecurityStatus event)]
        else
          [.call .TellSecurityStatus]
      else []
    let seen_l := parser.seenval 'L'
    let tr_l : List Effect :=
      if seen_l then
        let state := parser.byteval 'L' 0 % 256
        let event : SSTP_Event_t := { op_code := 2, data := some [state], length := 1, id := 9 }
        [.call (.SetAutoFocusLight event)]
      else []
    let seen_y := parser.seenval 'Y'
    let tr_y : List Effect :=
      if seen_y then
        let id := parser.ulongval 'Y' 0 % 4294967296
        let event : SSTP_Event_t :=
          { op_code := 2, data := some (bytesOfUInt32 id), length := 4, id := 9 }
        [.call (.SetOnlineSyncId event)]
      else []
    let seen_g := parser.seen 'G'
    let tr_g : List Effect :=
      if seen_g then
        let event : SSTP_Event_t := { op_code := 2, data := none, length := 0, id := 9 }
        [.call (.GetOnlineSyncId event)]
      else []
    let seen_t := parser.seenval 'T'
    let tr_t : List Effect :=
      if seen_t then
        let test_cmd_code := parser.byteval 'T' 0 % 256
        match test_cmd_code with
        | 0 => [.call .PrintInfo]
        | 1 =>
          let power := parser.floatval 'P' 0
          [.call (.SetOutput power)]
        | 2 =>
          let fs := parser.byteval 'P' 0 % 256
          [.call (.SetFanPower fs)]
        | 3 =>
          let sw := parser.byteval 'P' 0 % 256
          [.call (.SetCrossLightCAN sw)]
        | 4 =>
          let (ret, sw) := laser.GetCrossLightCAN
          if E_SUCCESS = ret then
            [.call .GetCrossLightCAN,
             .log (.LOG_I "crosslight: %d\n" [.int (if sw then 1 else 0)])]
          else
            [.call .GetCrossLightCAN, .log (.LOG_E "Can not got crosslight state\n")]
        | 5 =>
          let fss := parser.byteval 'P' 0 % 256
          [.call (.SetFireSensorSensitivityCAN fss)]
        | 6 =>
          let (ret, fss) := laser.GetFireSensorSensitivityCAN
          if E_SUCCESS = ret then
            [.call .GetFireSensorSensitivityCAN,
             .log (.LOG_I "fire sensor sensitivity: %d\n" [.int (fss % 256)])]
          else
            [.call .GetFireSensorSensitivityCAN,
             .log (.LOG_E "Can not got fire sensor sensitivity\n")]
        | 7 =>
          let x := parser.floatval 'X' 0
          let y := parser.floatval 'Y' 0
          [.call (.SetCrossLightOffsetCAN x y)]
        | 8 =>
          let (ret, x, y) := laser.GetCrossLightOffsetCAN
          if E_SUCCESS = ret then
            [.call .GetCrossLightOffsetCAN,
             .log (.LOG_I "crosslight offset x %f, y %f\n" [.float x, .float y])]
          else
            [.call .GetCrossLightOffsetCAN, .log (.LOG_E "Can not got crosslight offset\n")]
        | 9 =>
          let itv := parser.ushortval 'P' 0 % 65536
          [.call (.SetFireSensorReportTime itv)]
        | 10 =>
          let (ret, _e) := laser.GetCrosslightOffset
          if E_SUCCESS = ret then
            [.call .GetCrosslightOffset, .log (.LOG_I "Send to HMI\n" [])]
          else
            [.call .GetCrosslightOffset, .log (.LOG_E "Can not got crosslight offset\n")]
        | _ => []
      else []
    tr_s ++ tr_l ++ tr_y ++ tr_g ++ tr_t

/-! ## Reading a trace -/

/-- The proxy calls of a trace, in order. -/
def calls (tr : List Effect) : List Call :=
  tr.filterMap fun e => match e with
    | .call c => some c
    | .log _ => none

/-- The output lines of a trace, in order. -/
def logs (tr : List Effect) : List LogLine :=
  tr.filterMap fun e => match e with
    | .call _ => none
    | .log l => some l


/-! ## Vocabulary of the specification -/

/-- The five top-level parameters of the command. -/
inductive TopParam where
  | S | L | Y | G | T
  deriving DecidableEq, Repr

/-- The methods of the `laser` proxy that `M2002` uses. -/
inductive Method where
  | GetSecurityStatus
  | TellSecurityStatus
  | SetAutoFocusLight
  | SetOnlineSyncId
  | GetOnlineSyncId
  | PrintInfo
  | SetOutput
  | SetFanPower
  | SetCrossLightCAN
  | GetCrossLightCAN
  | SetFireSensorSensitivityCAN
  | GetFireSensorSensitivityCAN
  | SetCrossLightOffsetCAN
  | GetCrossLightOffsetCAN
  | SetFireSensorReportTime
  | GetCrosslightOffset
  deriving DecidableEq, Repr

/-- The proxy method a call invokes. -/
def Call.method : Call → Method
  | .GetSecurityStatus _ => .GetSecurityStatus
  | .TellSecurityStatus => .TellSecurityStatus
  | .SetAutoFocusLight _ => .SetAutoFocusLight
  | .SetOnlineSyncId _ => .SetOnlineSyncId
  | .GetOnlineSyncId _ => .GetOnlineSyncId
  | .PrintInfo => .PrintInfo
  | .SetOutput _ => .SetOutput
  | .SetFanPower _ => .SetFanPower
  | .SetCrossLightCAN _ => .SetCrossLightCAN
  | .GetCrossLightCAN => .GetCrossLightCAN
  | .SetFireSensorSensitivityCAN _ => .SetFireSensorSensitivityCAN
  | .GetFireSensorSensitivityCAN => .GetFireSensorSensitivityCAN
  | .SetCrossLightOffsetCAN _ _ => .SetCrossLightOffsetCAN
  | .GetCrossLightOffsetCAN => .GetCrossLightOffsetCAN
  | .SetFireSensorReportTime _ => .SetFireSensorReportTime
  | .GetCrosslightOffset => .GetCrosslightOffset

/-- The event record a call passes to the proxy, if it passes one. -/
def Call.event? : Call → Option SSTP_Event_t
  | .GetSecurityStatus ev => some ev
  | .SetAutoFocusLight ev => some ev
  | .SetOnlineSyncId ev => some ev
  | .GetOnlineSyncId ev => some ev
  | _ => none

/-- The top-level parameter whose action a proxy method is: the two security-status
methods belong to `S`, `SetAutoFocusLight` to `L`, `SetOnlineSyncId` to `Y`,
`GetOnlineSyncId` to `G`, and the methods of the sub-command table to `T`. -/
def Method.param : Method → TopParam
  | .GetSecurityStatus => .S
  | .TellSecurityStatus => .S
  | .SetAutoFocusLight => .L
  | .SetOnlineSyncId => .Y
  | .GetOnlineSyncId => .G
  | _ => .T

/-- The sub-command table as the specification lists it: the proxy method designated
for a code, none for a code of 11 or above. -/
def designated : Nat → Option Method
  | 0 => some .PrintInfo
  | 1 => some .SetOutput
  | 2 => some .SetFanPower
  | 3 => some .SetCrossLightCAN
  | 4 => some .GetCrossLightCAN
  | 5 => some .SetFireSensorSensitivityCAN
  | 6 => some .GetFireSensorSensitivityCAN
  | 7 => some .SetCrossLightOffsetCAN
  | 8 => some .GetCrossLightOffsetCAN
  | 9 => some .SetFireSensorReportTime
  | 10 => some .GetCrosslightOffset
  | _ => none

/-- The payload width the specification gives each event-carrying method: the byte
width of the scalar transmitted. -/
def payloadWidth : Method → Nat
  | .SetAutoFocusLight => 1
  | .SetOnlineSyncId => 4
  | _ => 0

/-- Decoding of a payload as the specification describes it: a little-endian
unsigned number. -/
def decodeLE : List Nat → Nat
  | [] => 0
  | b :: bs => b + 256 * decodeLE bs

/-- A value line: written by `LOG_I`. -/
def LogLine.isValue : LogLine → Bool
  | .LOG_I _ _ => true
  | _ => false

/-- An error line: written by `LOG_E`. -/
def LogLine.isError : LogLine → Bool
  | .LOG_E _ => true
  | _ => false

/-- The calls of a trace that are the action of one top-level parameter. -/
def callsOf (q : TopParam) (tr : List Effect) : List Call :=
  (calls tr).filter fun c => decide (c.method.param = q)

/-- The value lines of a trace. -/
def valueLines (tr : List Effect) : List LogLine :=
  (logs tr).filter LogLine.isValue

/-- The error lines of a trace. -/
def errorLines (tr : List Effect) : List LogLine :=
  (logs tr).filter LogLine.isError

/-! ## Concrete commands -/

/-- The command line `M2002` with no parameter. -/
def noParams : GCodeParser := ⟨fun _ => .absent⟩

/-- A command line extended by one parameter. -/
def GCodeParser.add (p : GCodeParser) (c : Char) (x : Param) : GCodeParser :=
  ⟨fun d => if d = c then x else p.param d⟩

/-- The readings of a small integer value `n` (at most 255, so every accessor reads `n`). -/
def num (n : Nat) : ParamValue := ⟨n, n, n, n⟩

/-- A proxy whose getters all succeed and hand back zeros. -/
def idle : ToolHeadLaser :=
  ⟨(E_SUCCESS, false), (E_SUCCESS, 0), (E_SUCCESS, 0, 0), (E_SUCCESS, ⟨0, 0, 0, none⟩)⟩

/-- The command line `M2002 T7 X1.5 Y2`: set the cross-light offset to (1.5, 2). -/
def cmdT7XY : GCodeParser :=
  ((noParams.add 'T' (.val (num 7))).add 'X' (.val ⟨1, 1, 1, 1.5⟩)).add 'Y' (.val (num 2))

/-- The command line `M2002 T1 P12.5`: set the laser power to 12.5. -/
def cmdT1P : GCodeParser :=
  (noParams.add 'T' (.val (num 1))).add 'P' (.val ⟨12, 12, 12, 12.5⟩)

/-- The command line `M2002 T10`: the HMI cross-light offset test. -/
def cmdT10 : GCodeParser := noParams.add 'T' (.val (num 10))

/-- The command line `M2002 T4`: query the cross-light state. -/
def cmdT4 : GCodeParser := noParams.add 'T' (.val (num 4))

/-- The command line `M2002 S1 L1 Y258 G`. -/
def cmdSLYG : GCodeParser :=
  (((noParams.add 'S' (.val (num 1))).add 'L' (.val (num 1))).add 'Y'
    (.val ⟨255, 258, 258, 258⟩)).add 'G' .bare

/-- A proxy whose `GetCrosslightOffset` succeeds and hands back the event `e`. -/
def hmi (e : SSTP_Event_t) : ToolHeadLaser :=
  ⟨(E_SUCCESS, false), (E_SUCCESS, 0), (E_SUCCESS, 0, 0), (E_SUCCESS, e)⟩

/-- A proxy whose `GetCrossLightCAN` succeeds and reports the cross light on. -/
def crossLightOn : ToolHeadLaser :=
  ⟨(E_SUCCESS, true), (E_SUCCESS, 0), (E_SUCCESS, 0, 0), (E_SUCCESS, ⟨0, 0, 0, none⟩)⟩

/-! ## Closed forms of the trace, block by block -/

/-- The calls of the `S` block. -/
def sCalls (p : GCodeParser) : List Call :=
  match p.param 'S' with
  | .absent => []
  | .bare => [.TellSecurityStatus]
  | .val v =>
    if v.value_byte % 256 = 0 then [.TellSecurityStatus]
    else [.GetSecurityStatus ⟨2, 9, 0, none⟩]

/-- The calls of the `L` block. -/
def lCalls (p : GCodeParser) : List Call :=
  match p.param 'L' with
  | .val v => [.SetAutoFocusLight ⟨2, 9, 1, some [v.value_byte % 256]⟩]
  | _ => []

/-- The calls of the `Y` block. -/
def yCalls (p : GCodeParser) : List Call :=
  match p.param 'Y' with
  | .val v => [.SetOnlineSyncId ⟨2, 9, 4, some (bytesOfUInt32 (v.value_ulong % 4294967296))⟩]
  | _ => []

/-- The calls of the `G` block. -/
def gCalls (p : GCodeParser) : List Call :=
  match p.param 'G' with
  | .absent => []
  | _ => [.GetOnlineSyncId ⟨2, 9, 0, none⟩]

/-- The call of sub-command `c`. -/
def tCall (p : GCodeParser) : Nat → List Call
  | 0 => [.PrintInfo]
  | 1 => [.SetOutput (p.floatval 'P' 0)]
  | 2 => [.SetFanPower (p.byteval 'P' 0 % 256)]
  | 3 => [.SetCrossLightCAN (p.byteval 'P' 0 % 256)]
  | 4 => [.GetCrossLightCAN]
  | 5 => [.SetFireSensorSensitivityCAN (p.byteval 'P' 0 % 256)]
  | 6 => [.GetFireSensorSensitivityCAN]
  | 7 => [.SetCrossLightOffsetCAN (p.floatval 'X' 0) (p.floatval 'Y' 0)]
  | 8 => [.GetCrossLightOffsetCAN]
  | 9 => [.SetFireSensorReportTime (p.ushortval 'P' 0 % 65536)]
  | 10 => [.GetCrosslightOffset]
  | _ => []

/-- The calls of the `T` block. -/
def tCalls (p : GCodeParser) : List Call :=
  match p.param 'T' with
  | .val v => tCall p (v.value_byte % 256)
  | _ => []

/-- The lines of the `S` block. -/
def sLogs (p : GCodeParser) : List LogLine :=
  match p.param 'S' with
  | .val v => if v.value_byte % 256 = 0 then [] else [.SERIAL_ECHOLN "Get security status"]
  | _ => []

/-- The lines of sub-command `c`. -/
def tLog (r : ToolHeadLaser) : Nat → List LogLine
  | 4 =>
    if E_SUCCESS = r.GetCrossLightCAN.1 then
      [.LOG_I "crosslight: %d\n" [.int (if r.GetCrossLightCAN.2 then 1 else 0)]]
    else [.LOG_E "Can not got crosslight state\n"]
  | 6 =>
    if E_SUCCESS = r.GetFireSensorSensitivityCAN.1 then
      [.LOG_I "fire sensor sensitivity: %d\n" [.int (r.GetFireSensorSensitivityCAN.2 % 256)]]
    else [.LOG_E "Can not got fire sensor sensitivity\n"]
  | 8 =>
    if E_SUCCESS = r.GetCrossLightOffsetCAN.1 then
      [.LOG_I "crosslight offset x %f, y %f\n"
        [.float r.GetCrossLightOffsetCAN.2.1, .float r.GetCrossLightOffsetCAN.2.2]]
    else [.LOG_E "Can not got crosslight offset\n"]
  | 10 =>
    if E_SUCCESS = r.GetCrosslightOffset.1 then [.LOG_I "Send to HMI\n" []]
    else [.LOG_E "Can not got crosslight offset\n"]
  | _ => []

/-- The lines of the `T` block. -/
def tLogs (p : GCodeParser) (r : ToolHeadLaser) : List LogLine :=
  match p.param 'T' with
  | .val v => tLog r (v.value_byte % 256)
  | _ => []

theorem calls_append (a b : List Effect) : calls (a ++ b) = calls a ++ calls b := by
  simp [calls, List.filterMap_append]

theorem logs_append (a b : List Effect) : logs (a ++ b) = logs a ++ logs b := by
  simp [logs, List.filterMap_append]

/-- Closed form of the proxy calls of a run that passes the guard. -/
theorem calls_M2002 (th : ToolHead) (p : GCodeParser) (r : ToolHeadLaser)
    (h : th ≠ ToolHead.MODULE_TOOLHEAD_LASER) :
    calls (M2002 th p r) = sCalls p ++ lCalls p ++ yCalls p ++ gCalls p ++ tCalls p := by
  simp only [M2002, if_neg h, calls_append]
  congr 1
  · congr 1
    · congr 1
      · congr 1
        · cases hS : p.param 'S' <;>
            simp [sCalls, GCodeParser.seen, GCodeParser.byteval, hS, calls]
          split <;> simp_all [calls]
        · cases hL : p.param 'L' <;>
            simp [lCalls, GCodeParser.seenval, GCodeParser.byteval, hL, calls]
      · cases hY : p.param 'Y' <;>
          simp [yCalls, GCodeParser.seenval, GCodeParser.ulongval, hY, calls]
    · cases hG : p.param 'G' <;> simp [gCalls, GCodeParser.seen, hG, calls]
  · cases hT : p.param 'T' with
    | absent => simp [tCalls, GCodeParser.seenval, hT, calls]
    | bare => simp [tCalls, GCodeParser.seenval, hT, calls]
    | val v =>
      have hs : p.seenval 'T' = true := by simp [GCodeParser.seenval, hT]
      have hb : p.byteval 'T' 0 = v.value_byte % 256 := by simp [GCodeParser.byteval, hT]
      simp only [tCalls, hT, hs, hb, Nat.mod_mod, if_true]
      generalize v.value_byte % 256 = c
      rcases c with _ | _ | _ | _ | _ | _ | _ | _ | _ | _ | _ | c <;>
        simp [tCall, calls] <;> split <;> simp

/-- Closed form of the output lines of a run that passes the guard. -/
theorem logs_M2002 (th : ToolHead) (p : GCodeParser) (r : ToolHeadLaser)
    (h : th ≠ ToolHead.MODULE_TOOLHEAD_LASER) :
    logs (M2002 th p r) = sLogs p ++ tLogs p r := by
  have key : logs (M2002 th p r) = sLogs p ++ [] ++ [] ++ [] ++ tLogs p r := by
    simp only [M2002, if_neg h, logs_append]
    congr 1
    · congr 1
      · congr 1
        · congr 1
          · cases hS : p.param 'S' <;>
              simp [sLogs, GCodeParser.seen, GCodeParser.byteval, hS, logs]
            split <;> simp_all [logs]
          · split <;> simp [logs]
        · split <;> simp [logs]
      · split <;> simp [logs]
    · cases hT : p.param 'T' with
      | absent => simp [tLogs, GCodeParser.seenval, hT, logs]
      | bare => simp [tLogs, GCodeParser.seenval, hT, logs]
      | val v =>
        have hs : p.seenval 'T' = true := by simp [GCodeParser.seenval, hT]
        have hb : p.byteval 'T' 0 = v.value_byte % 256 := by simp [GCodeParser.byteval, hT]
        simp only [tLogs, hT, hs, hb, Nat.mod_mod, if_true]
        generalize v.value_byte % 256 = c
        rcases c with _ | _ | _ | _ | _ | _ | _ | _ | _ | _ | _ | c <;>
          simp [tLog, logs] <;> split <;> simp [*]
  simpa using key


theorem sCalls_param (p : GCodeParser) : ∀ c ∈ sCalls p, c.method.param = TopParam.S := by
  intro c hc
  unfold sCalls at hc
  split at hc
  · simp at hc
  · simp at hc; subst hc; rfl
  · split at hc <;> simp at hc <;> subst hc <;> rfl

theorem lCalls_param (p : GCodeParser) : ∀ c ∈ lCalls p, c.method.param = TopParam.L := by
  intro c hc
  unfold lCalls at hc
  split at hc
  · simp at hc; subst hc; rfl
  · simp at hc

theorem yCalls_param (p : GCodeParser) : ∀ c ∈ yCalls p, c.method.param = TopParam.Y := by
  intro c hc
  unfold yCalls at hc
  split at hc
  · simp at hc; subst hc; rfl
  · simp at hc

theorem gCalls_param (p : GCodeParser) : ∀ c ∈ gCalls p, c.method.param = TopParam.G := by
  intro c hc
  unfold gCalls at hc
  split at hc
  · simp at hc
  · simp at hc; subst hc; rfl

theorem tCall_method (p : GCodeParser) (c : Nat) :
    (tCall p c).map Call.method = (designated c).toList := by
  rcases c with _ | _ | _ | _ | _ | _ | _ | _ | _ | _ | _ | c <;>
    simp [tCall, designated, Call.method]

theorem tCall_param (p : GCodeParser) (n : Nat) :
    ∀ c ∈ tCall p n, c.method.param = TopParam.T := by
  intro c hc
  rcases n with _ | _ | _ | _ | _ | _ | _ | _ | _ | _ | _ | n <;>
    simp [tCall] at hc <;> subst hc <;> rfl

theorem tCalls_param (p : GCodeParser) : ∀ c ∈ tCalls p, c.method.param = TopParam.T := by
  intro c hc
  unfold tCalls at hc
  split at hc
  · exact tCall_param p _ c hc
  · simp at hc

theorem filter_param_self {q : TopParam} {l : List Call} (h : ∀ c ∈ l, c.method.param = q) :
    l.filter (fun c => decide (c.method.param = q)) = l := by
  rw [List.filter_eq_self]
  intro c hc
  simp [h c hc]

theorem filter_param_nil {q q' : TopParam} {l : List Call} (h : ∀ c ∈ l, c.method.param = q')
    (hq : q' ≠ q) : l.filter (fun c => decide (c.method.param = q)) = [] := by
  rw [List.filter_eq_nil_iff]
  intro c hc
  simp [h c hc, hq]

/-- The calls that are the action of one top-level parameter, for a run that passes
the guard. -/
theorem callsOf_M2002 (th : ToolHead) (p : GCodeParser) (r : ToolHeadLaser)
    (h : th ≠ ToolHead.MODULE_TOOLHEAD_LASER) (q : TopParam) :
    callsOf q (M2002 th p r) =
      match q with
      | .S => sCalls p
      | .L => lCalls p
      | .Y => yCalls p
      | .G => gCalls p
      | .T => tCalls p := by
  unfold callsOf
  rw [calls_M2002 th p r h]
  simp only [List.filter_append]
  cases q
  · rw [filter_param_self (sCalls_param p), filter_param_nil (lCalls_param p) (by decide),
      filter_param_nil (yCalls_param p) (by decide), filter_param_nil (gCalls_param p) (by decide),
      filter_param_nil (tCalls_param p) (by decide)]
    simp
  · rw [filter_param_nil (sCalls_param p) (by decide), filter_param_self (lCalls_param p),
      filter_param_nil (yCalls_param p) (by decide), filter_param_nil (gCalls_param p) (by decide),
      filter_param_nil (tCalls_param p) (by decide)]
    simp
  · rw [filter_param_nil (sCalls_param p) (by decide),
      filter_param_nil (lCalls_param p) (by decide),
      filter_param_self (yCalls_param p), filter_param_nil (gCalls_param p) (by decide),
      filter_param_nil (tCalls_param p) (by decide)]
    simp
  · rw [filter_param_nil (sCalls_param p) (by decide),
      filter_param_nil (lCalls_param p) (by decide),
      filter_param_nil (yCalls_param p) (by decide), filter_param_self (gCalls_param p),
      filter_param_nil (tCalls_param p) (by decide)]
    simp
  · rw [filter_param_nil (sCalls_param p) (by decide),
      filter_param_nil (lCalls_param p) (by decide),
      filter_param_nil (yCalls_param p) (by decide), filter_param_nil (gCalls_param p) (by decide),
      filter_param_self (tCalls_param p)]
    simp

/-- The guard returns at once for the toolhead `MODULE_TOOLHEAD_LASER`. -/
theorem M2002_LASER (p : GCodeParser) (r : ToolHeadLaser) :
    M2002 ToolHead.MODULE_TOOLHEAD_LASER p r = [] := by
  simp [M2002]


theorem decodeLE_bytes (n : Nat) (hn : n < 4294967296) :
    decodeLE [n % 256, n / 256 % 256, n / 65536 % 256, n / 16777216 % 256] = n := by
  simp only [decodeLE]
  omega

theorem sLogs_filter (p : GCodeParser) :
    (sLogs p).filter LogLine.isValue = [] ∧ (sLogs p).filter LogLine.isError = [] := by
  unfold sLogs
  split
  · split <;> simp [LogLine.isValue, LogLine.isError]
  · simp

theorem valueLines_M2002 (th : ToolHead) (p : GCodeParser) (r : ToolHeadLaser)
    (h : th ≠ ToolHead.MODULE_TOOLHEAD_LASER) :
    valueLines (M2002 th p r) = (tLogs p r).filter LogLine.isValue := by
  simp [valueLines, logs_M2002 th p r h, List.filter_append, (sLogs_filter p).1]

theorem errorLines_M2002 (th : ToolHead) (p : GCodeParser) (r : ToolHeadLaser)
    (h : th ≠ ToolHead.MODULE_TOOLHEAD_LASER) :
    errorLines (M2002 th p r) = (tLogs p r).filter LogLine.isError := by
  simp [errorLines, logs_M2002 th p r h, List.filter_append, (sLogs_filter p).2]

/-! ## The claims -/

/-- C1, the code at a 3D-printing and at a CNC toolhead: the guard returns only for
`MODULE_TOOLHEAD_LASER`, so with a 3D-printing toolhead `M2002 S` calls
`TellSecurityStatus`, and with a CNC toolhead `M2002 S1` writes a line and
calls `GetSecurityStatus`. -/
theorem M2002_guard_passes_3DP_and_CNC :
    M2002 ToolHead.MODULE_TOOLHEAD_3DP (noParams.add 'S' .bare) idle =
      [.call .TellSecurityStatus] ∧
    M2002 ToolHead.MODULE_TOOLHEAD_CNC (noParams.add 'S' (.val (num 1))) idle =
      [.log (.SERIAL_ECHOLN "Get security status"),
       .call (.GetSecurityStatus ⟨2, 9, 0, none⟩)] := by
  decide

/-- C2, counterexample: `M2002 T7 X1.5 Y2` on a 10W laser invokes two proxy methods,
`SetOnlineSyncId` (for the `Y` that sub-command 7 reads) and then
`SetCrossLightOffsetCAN`, not only the one designated for code 7. -/
theorem M2002_T7_with_Y_invokes_two_methods :
    calls (M2002 ToolHead.MODULE_TOOLHEAD_LASER_10W cmdT7XY idle) =
      [.SetOnlineSyncId ⟨2, 9, 4, some [2, 0, 0, 0]⟩, .SetCrossLightOffsetCAN 1.5 2] ∧
    (calls (M2002 ToolHead.MODULE_TOOLHEAD_LASER_10W cmdT7XY idle)).map Call.method ≠
      (designated 7).toList := by
  constructor
  · rfl
  · intro hne
    have h2 : ((calls (M2002 ToolHead.MODULE_TOOLHEAD_LASER_10W cmdT7XY idle)).map
        Call.method).length = 2 := by rfl
    rw [hne] at h2
    simp [designated] at h2

/-- C2, amended: for a request that passes the guard, with no `S`, `L` or `G` and with
`T` of byte value `c`, the proxy methods invoked are `SetOnlineSyncId` exactly
when `Y` carries a value, followed by the method designated for `c` when `c`
is in 0..10 and by nothing when `c` is 11 or above; for `c` of 11 or above no
line is written. -/
theorem M2002_subcommand_table (th : ToolHead) (p : GCodeParser) (r : ToolHeadLaser)
    (v : ParamValue) (h : th ≠ ToolHead.MODULE_TOOLHEAD_LASER)
    (hS : p.param 'S' = Param.absent) (hL : p.param 'L' = Param.absent)
    (hG : p.param 'G' = Param.absent) (hT : p.param 'T' = Param.val v) :
    (calls (M2002 th p r)).map Call.method =
        (if p.seenval 'Y' then [Method.SetOnlineSyncId] else []) ++
          (designated (v.value_byte % 256)).toList ∧
      (v.value_byte % 256 ≤ 10 → ∃ m, designated (v.value_byte % 256) = some m) ∧
      (11 ≤ v.value_byte % 256 →
        designated (v.value_byte % 256) = none ∧ logs (M2002 th p r) = []) := by
  refine ⟨?_, ?_, ?_⟩
  · rw [calls_M2002 th p r h]
    have hy : (yCalls p).map Call.method =
        (if p.seenval 'Y' then [Method.SetOnlineSyncId] else []) := by
      cases hY : p.param 'Y' <;> simp [yCalls, GCodeParser.seenval, hY, Call.method]
    simp only [List.map_append, hy]
    simp [sCalls, lCalls, gCalls, tCalls, hS, hL, hG, hT, tCall_method]
  · intro hc
    generalize v.value_byte % 256 = c at hc
    rcases c with _ | _ | _ | _ | _ | _ | _ | _ | _ | _ | _ | c <;> simp [designated] at hc ⊢
  · intro hc
    rw [logs_M2002 th p r h]
    generalize hcc : v.value_byte % 256 = c at hc
    rcases c with _ | _ | _ | _ | _ | _ | _ | _ | _ | _ | _ | c <;> simp at hc
    simp [designated, sLogs, tLogs, hS, hT, hcc, tLog]

/-- C2, amended, at `M2002 T7 X1.5 Y2` on a 10W laser. -/
theorem M2002_subcommand_table_witness :
    (calls (M2002 ToolHead.MODULE_TOOLHEAD_LASER_10W cmdT7XY idle)).map Call.method =
      [Method.SetOnlineSyncId, Method.SetCrossLightOffsetCAN] :=
  (M2002_subcommand_table ToolHead.MODULE_TOOLHEAD_LASER_10W cmdT7XY idle (num 7)
    (by decide) (by decide) (by decide) (by decide) (by decide)).1

/-- C3: for a request that passes the guard in which `L`, `Y` and `T`, when supplied,
carry a value, the calls that are the action of each top-level parameter are
exactly: for `S` one `GetSecurityStatus` or one `TellSecurityStatus` when `S`
is supplied and none otherwise; for `L` one `SetAutoFocusLight` when supplied
and none otherwise; likewise one `SetOnlineSyncId` for `Y`, one
`GetOnlineSyncId` for `G`, and for `T` the method the sub-command table
designates for its code. -/
theorem M2002_parameters_independent (th : ToolHead) (p : GCodeParser) (r : ToolHeadLaser)
    (h : th ≠ ToolHead.MODULE_TOOLHEAD_LASER)
    (hL : p.param 'L' ≠ Param.bare) (hY : p.param 'Y' ≠ Param.bare)
    (hT : p.param 'T' ≠ Param.bare) :
    (callsOf TopParam.S (M2002 th p r)).map Call.method =
        (if p.seen 'S' then
          (if p.byteval 'S' 0 % 256 ≠ 0 then [Method.GetSecurityStatus]
           else [Method.TellSecurityStatus])
         else []) ∧
      (callsOf TopParam.L (M2002 th p r)).map Call.method =
        (if p.seen 'L' then [Method.SetAutoFocusLight] else []) ∧
      (callsOf TopParam.Y (M2002 th p r)).map Call.method =
        (if p.seen 'Y' then [Method.SetOnlineSyncId] else []) ∧
      (callsOf TopParam.G (M2002 th p r)).map Call.method =
        (if p.seen 'G' then [Method.GetOnlineSyncId] else []) ∧
      (callsOf TopParam.T (M2002 th p r)).map Call.method =
        (if p.seen 'T' then (designated (p.byteval 'T' 0 % 256)).toList else []) := by
  simp only [callsOf_M2002 th p r h]
  refine ⟨?_, ?_, ?_, ?_, ?_⟩
  · cases hS : p.param 'S' <;>
      simp [sCalls, GCodeParser.seen, GCodeParser.byteval, hS, Call.method]
    split <;> simp [Call.method]
  · cases hL' : p.param 'L' <;> simp_all [lCalls, GCodeParser.seen, Call.method]
  · cases hY' : p.param 'Y' <;> simp_all [yCalls, GCodeParser.seen, Call.method]
  · cases hG : p.param 'G' <;> simp [gCalls, GCodeParser.seen, hG, Call.method]
  · cases hT' : p.param 'T' <;>
      simp_all [tCalls, GCodeParser.seen, GCodeParser.byteval, tCall_method]

/-- C3 at `M2002 T7 X1.5 Y2` on a 10W laser: `Y` and `T` act, `S`, `L` and `G` do not. -/
theorem M2002_parameters_independent_witness :
    (callsOf TopParam.S (M2002 ToolHead.MODULE_TOOLHEAD_LASER_10W cmdT7XY idle)).map
        Call.method = [] ∧
      (callsOf TopParam.Y (M2002 ToolHead.MODULE_TOOLHEAD_LASER_10W cmdT7XY idle)).map
        Call.method = [Method.SetOnlineSyncId] :=
  have w := M2002_parameters_independent ToolHead.MODULE_TOOLHEAD_LASER_10W cmdT7XY idle
    (by decide) (by decide) (by decide) (by decide)
  ⟨w.1, w.2.2.1⟩


/-- C4: for a request that passes the guard with `S` present, if the byte value of `S`
is 0 (as it is when `S` has no value) the only call made for `S` is
`TellSecurityStatus`, which carries no event record; if it is nonzero the
only call made for `S` is one `GetSecurityStatus` whose event record has
op_code 2, id 9, length 0 and a null payload. -/
theorem M2002_security_status (th : ToolHead) (p : GCodeParser) (r : ToolHeadLaser)
    (h : th ≠ ToolHead.MODULE_TOOLHEAD_LASER) (hS : p.seen 'S' = true) :
    (p.byteval 'S' 0 % 256 = 0 →
        callsOf TopParam.S (M2002 th p r) = [Call.TellSecurityStatus] ∧
          (callsOf TopParam.S (M2002 th p r)).filterMap Call.event? = []) ∧
      (p.byteval 'S' 0 % 256 ≠ 0 →
        callsOf TopParam.S (M2002 th p r) =
          [Call.GetSecurityStatus { op_code := 2, id := 9, length := 0, data := none }]) ∧
      (p.param 'S' = Param.bare → p.byteval 'S' 0 % 256 = 0) := by
  simp only [callsOf_M2002 th p r h]
  cases hp : p.param 'S' with
  | absent => simp [GCodeParser.seen, hp] at hS
  | bare => simp [sCalls, GCodeParser.byteval, hp, Call.event?]
  | val v =>
    simp only [sCalls, GCodeParser.byteval, hp, Nat.mod_mod]
    refine ⟨?_, ?_, ?_⟩
    · intro h0
      simp [h0, Call.event?]
    · intro h0
      simp [h0]
    · intro hb
      cases hb

/-- C4 at `M2002 S1 L1 Y258 G` on a 10W laser: one `GetSecurityStatus` with the
empty event record. -/
theorem M2002_security_status_witness :
    callsOf TopParam.S (M2002 ToolHead.MODULE_TOOLHEAD_LASER_10W cmdSLYG idle) =
      [Call.GetSecurityStatus { op_code := 2, id := 9, length := 0, data := none }] :=
  (M2002_security_status ToolHead.MODULE_TOOLHEAD_LASER_10W cmdSLYG idle
    (by decide) (by decide)).2.1 (by decide)

/-- C5: every event record that `M2002` passes to the proxy has op_code 2 and id 9, its
length is the payload width of the method it goes to (0 for
`GetSecurityStatus` and `GetOnlineSyncId`, 1 for `SetAutoFocusLight`, 4 for
`SetOnlineSyncId`), its payload has exactly that many bytes, and a record of
length 0 has a null payload. -/
theorem M2002_event_invariant (th : ToolHead) (p : GCodeParser) (r : ToolHeadLaser)
    (c : Call) (ev : SSTP_Event_t) (hc : c ∈ calls (M2002 th p r))
    (he : c.event? = some ev) :
    ev.op_code = 2 ∧ ev.id = 9 ∧ ev.length = payloadWidth c.method ∧
      (ev.data.getD []).length = ev.length ∧ (ev.length = 0 → ev.data = none) := by
  by_cases h : th = ToolHead.MODULE_TOOLHEAD_LASER
  · subst h
    simp [M2002_LASER, calls] at hc
  · rw [calls_M2002 th p r h] at hc
    simp only [List.mem_append] at hc
    rcases hc with (((hc | hc) | hc) | hc) | hc
    · unfold sCalls at hc
      split at hc
      · simp at hc
      · simp at hc; subst hc; simp [Call.event?] at he
      · split at hc
        · simp at hc; subst hc; simp [Call.event?] at he
        · simp at hc; subst hc
          simp [Call.event?] at he; subst he
          simp [payloadWidth, Call.method]
    · unfold lCalls at hc
      split at hc
      · simp at hc; subst hc
        simp [Call.event?] at he; subst he
        simp [payloadWidth, Call.method]
      · simp at hc
    · unfold yCalls at hc
      split at hc
      · simp at hc; subst hc
        simp [Call.event?] at he; subst he
        simp [payloadWidth, Call.method, bytesOfUInt32]
      · simp at hc
    · unfold gCalls at hc
      split at hc
      · simp at hc
      · simp at hc; subst hc
        simp [Call.event?] at he; subst he
        simp [payloadWidth, Call.method]
    · unfold tCalls at hc
      split at hc
      · rename_i v _
        generalize v.value_byte % 256 = n at hc
        rcases n with _ | _ | _ | _ | _ | _ | _ | _ | _ | _ | _ | n <;>
          simp [tCall] at hc <;> subst hc <;> simp [Call.event?] at he
      · simp at hc

/-- C5 at `M2002 S1 L1 Y258 G` on a 10W laser, for the `SetOnlineSyncId` record. -/
theorem M2002_event_invariant_witness :
    Call.SetOnlineSyncId { op_code := 2, id := 9, length := 4, data := some [2, 1, 0, 0] } ∈
        calls (M2002 ToolHead.MODULE_TOOLHEAD_LASER_10W cmdSLYG idle) ∧
      (4 : Nat) = payloadWidth Method.SetOnlineSyncId :=
  ⟨by decide,
    (M2002_event_invariant ToolHead.MODULE_TOOLHEAD_LASER_10W cmdSLYG idle
      (Call.SetOnlineSyncId { op_code := 2, id := 9, length := 4, data := some [2, 1, 0, 0] })
      { op_code := 2, id := 9, length := 4, data := some [2, 1, 0, 0] } (by decide) rfl).2.2.1⟩


/-- C6: for a request that passes the guard, when `L` carries the byte `b` the event of
the one `SetAutoFocusLight` call has the single payload byte `b`; when `Y`
carries the 32-bit value `n` the event of the one `SetOnlineSyncId` call has
the four bytes of `n`, lowest first; decoding either payload as a
little-endian number gives back the value, and two requests whose `L` (or
`Y`) events are equal carry the same value. -/
theorem M2002_payload_roundtrip (th : ToolHead) (p : GCodeParser) (r : ToolHeadLaser)
    (h : th ≠ ToolHead.MODULE_TOOLHEAD_LASER) :
    (∀ v, p.param 'L' = Param.val v →
        callsOf TopParam.L (M2002 th p r) =
            [Call.SetAutoFocusLight
              { op_code := 2, id := 9, length := 1, data := some [v.value_byte % 256] }] ∧
          decodeLE [v.value_byte % 256] = v.value_byte % 256) ∧
      (∀ v, p.param 'Y' = Param.val v →
        callsOf TopParam.Y (M2002 th p r) =
            [Call.SetOnlineSyncId
              { op_code := 2, id := 9, length := 4,
                data := some [v.value_ulong % 4294967296 % 256,
                  v.value_ulong % 4294967296 / 256 % 256,
                  v.value_ulong % 4294967296 / 65536 % 256,
                  v.value_ulong % 4294967296 / 16777216 % 256] }] ∧
          decodeLE [v.value_ulong % 4294967296 % 256,
              v.value_ulong % 4294967296 / 256 % 256,
              v.value_ulong % 4294967296 / 65536 % 256,
              v.value_ulong % 4294967296 / 16777216 % 256] =
            v.value_ulong % 4294967296) ∧
      (∀ p' r' v v', p.param 'L' = Param.val v → p'.param 'L' = Param.val v' →
        callsOf TopParam.L (M2002 th p r) = callsOf TopParam.L (M2002 th p' r') →
          v.value_byte % 256 = v'.value_byte % 256) ∧
      (∀ p' r' v v', p.param 'Y' = Param.val v → p'.param 'Y' = Param.val v' →
        callsOf TopParam.Y (M2002 th p r) = callsOf TopParam.Y (M2002 th p' r') →
          v.value_ulong % 4294967296 = v'.value_ulong % 4294967296) := by
  refine ⟨?_, ?_, ?_, ?_⟩
  · intro v hv
    simp [callsOf_M2002 th p r h, lCalls, hv, decodeLE]
  · intro v hv
    refine ⟨?_, decodeLE_bytes _ (Nat.mod_lt _ (by decide))⟩
    simp [callsOf_M2002 th p r h, yCalls, hv, bytesOfUInt32]
  · intro p' r' v v' hv hv' heq
    simp only [callsOf_M2002 _ _ _ h, lCalls, hv, hv'] at heq
    simpa using heq
  · intro p' r' v v' hv hv' heq
    simp only [callsOf_M2002 _ _ _ h, yCalls, hv, hv', bytesOfUInt32] at heq
    have hd := decodeLE_bytes (v.value_ulong % 4294967296) (Nat.mod_lt _ (by decide))
    have hd' := decodeLE_bytes (v'.value_ulong % 4294967296) (Nat.mod_lt _ (by decide))
    have hl : [v.value_ulong % 4294967296 % 256, v.value_ulong % 4294967296 / 256 % 256,
        v.value_ulong % 4294967296 / 65536 % 256,
        v.value_ulong % 4294967296 / 16777216 % 256] =
        [v'.value_ulong % 4294967296 % 256, v'.value_ulong % 4294967296 / 256 % 256,
        v'.value_ulong % 4294967296 / 65536 % 256,
        v'.value_ulong % 4294967296 / 16777216 % 256] := by
      simpa using heq
    rw [← hd, ← hd', hl]

/-- C6 at `M2002 S1 L1 Y258 G` on a 10W laser: the `Y` payload is `[2, 1, 0, 0]` and
decodes to 258. -/
theorem M2002_payload_roundtrip_witness :
    callsOf TopParam.Y (M2002 ToolHead.MODULE_TOOLHEAD_LASER_10W cmdSLYG idle) =
        [Call.SetOnlineSyncId
          { op_code := 2, id := 9, length := 4, data := some [2, 1, 0, 0] }] ∧
      decodeLE [2, 1, 0, 0] = 258 :=
  (M2002_payload_roundtrip ToolHead.MODULE_TOOLHEAD_LASER_10W cmdSLYG idle
    (by decide)).2.1 ⟨255, 258, 258, 258⟩ (by decide)


/-- C7, counterexample: `M2002 T10` on a 10W laser whose `GetCrosslightOffset`
succeeds writes the one line `Send to HMI`, which has no argument: the line
is the same whichever event the getter handed back, so it does not report
the returned value. -/
theorem M2002_T10_success_line_reports_no_value :
    logs (M2002 ToolHead.MODULE_TOOLHEAD_LASER_10W cmdT10
        (hmi { op_code := 2, id := 9, length := 1, data := some [7] })) =
      [LogLine.LOG_I "Send to HMI\n" []] ∧
    logs (M2002 ToolHead.MODULE_TOOLHEAD_LASER_10W cmdT10
        (hmi { op_code := 2, id := 9, length := 1, data := some [8] })) =
      [LogLine.LOG_I "Send to HMI\n" []] := by
  decide

/-- C7, amended: for a request that passes the guard with `T` = 4, 6, 8 or 10, a getter
status other than `E_SUCCESS` gives exactly one error line and no value line;
`E_SUCCESS` gives no error line and exactly one value line, which for `T` =
4, 6, 8 reports the value(s) the getter returned and for `T` = 10 is the
fixed line `Send to HMI` without any returned value. -/
theorem M2002_getter_reporting (th : ToolHead) (p : GCodeParser) (r : ToolHeadLaser)
    (v : ParamValue) (h : th ≠ ToolHead.MODULE_TOOLHEAD_LASER)
    (hT : p.param 'T' = Param.val v) :
    (v.value_byte % 256 = 4 →
        (r.GetCrossLightCAN.1 = E_SUCCESS →
          valueLines (M2002 th p r) =
              [LogLine.LOG_I "crosslight: %d\n"
                [LogArg.int (if r.GetCrossLightCAN.2 then 1 else 0)]] ∧
            errorLines (M2002 th p r) = []) ∧
        (r.GetCrossLightCAN.1 ≠ E_SUCCESS →
          valueLines (M2002 th p r) = [] ∧
            errorLines (M2002 th p r) = [LogLine.LOG_E "Can not got crosslight state\n"])) ∧
      (v.value_byte % 256 = 6 →
        (r.GetFireSensorSensitivityCAN.1 = E_SUCCESS →
          valueLines (M2002 th p r) =
              [LogLine.LOG_I "fire sensor sensitivity: %d\n"
                [LogArg.int (r.GetFireSensorSensitivityCAN.2 % 256)]] ∧
            errorLines (M2002 th p r) = []) ∧
        (r.GetFireSensorSensitivityCAN.1 ≠ E_SUCCESS →
          valueLines (M2002 th p r) = [] ∧
            errorLines (M2002 th p r) =
              [LogLine.LOG_E "Can not got fire sensor sensitivity\n"])) ∧
      (v.value_byte % 256 = 8 →
        (r.GetCrossLightOffsetCAN.1 = E_SUCCESS →
          valueLines (M2002 th p r) =
              [LogLine.LOG_I "crosslight offset x %f, y %f\n"
                [LogArg.float r.GetCrossLightOffsetCAN.2.1,
                 LogArg.float r.GetCrossLightOffsetCAN.2.2]] ∧
            errorLines (M2002 th p r) = []) ∧
        (r.GetCrossLightOffsetCAN.1 ≠ E_SUCCESS →
          valueLines (M2002 th p r) = [] ∧
            errorLines (M2002 th p r) = [LogLine.LOG_E "Can not got crosslight offset\n"])) ∧
      (v.value_byte % 256 = 10 →
        (r.GetCrosslightOffset.1 = E_SUCCESS →
          valueLines (M2002 th p r) = [LogLine.LOG_I "Send to HMI\n" []] ∧
            errorLines (M2002 th p r) = []) ∧
        (r.GetCrosslightOffset.1 ≠ E_SUCCESS →
          valueLines (M2002 th p r) = [] ∧
            errorLines (M2002 th p r) = [LogLine.LOG_E "Can not got crosslight offset\n"])) := by
  simp only [valueLines_M2002 th p r h, errorLines_M2002 th p r h, tLogs, hT]
  refine ⟨?_, ?_, ?_, ?_⟩ <;> intro hc <;> rw [hc] <;> constructor <;> intro hr
  all_goals simp [tLog, hr.symm, LogLine.isValue, LogLine.isError]

/-- C7, amended, at `M2002 T4` on a 10W laser whose `GetCrossLightCAN` hands back
(success, on): one value line reporting 1 and no error line. -/
theorem M2002_getter_reporting_witness :
    valueLines (M2002 ToolHead.MODULE_TOOLHEAD_LASER_10W cmdT4 crossLightOn) =
        [LogLine.LOG_I "crosslight: %d\n" [LogArg.int 1]] ∧
      errorLines (M2002 ToolHead.MODULE_TOOLHEAD_LASER_10W cmdT4 crossLightOn) = [] :=
  ((M2002_getter_reporting ToolHead.MODULE_TOOLHEAD_LASER_10W cmdT4 crossLightOn (num 4)
    (by decide) (by decide)).1 (by decide)).1 rfl

/-- C8: for a request that passes the guard with no `S`, `L`, `Y` or `G`, the whole
trace of `T` = 1 is the one call `SetOutput` with the float value of `P`, of
`T` = 2, 3, 5 the one call `SetFanPower`, `SetCrossLightCAN`,
`SetFireSensorSensitivityCAN` with the byte value of `P`, and of `T` = 9 the
one call `SetFireSensorReportTime` with the 16-bit value of `P`; the value
is 0 when `P` is absent. No line is written. -/
theorem M2002_fire_and_log (th : ToolHead) (p : GCodeParser) (r : ToolHeadLaser)
    (v : ParamValue) (h : th ≠ ToolHead.MODULE_TOOLHEAD_LASER)
    (hS : p.param 'S' = Param.absent) (hL : p.param 'L' = Param.absent)
    (hY : p.param 'Y' = Param.absent) (hG : p.param 'G' = Param.absent)
    (hT : p.param 'T' = Param.val v) :
    (v.value_byte % 256 = 1 →
        M2002 th p r = [Effect.call (Call.SetOutput (p.floatval 'P' 0))]) ∧
      (v.value_byte % 256 = 2 →
        M2002 th p r = [Effect.call (Call.SetFanPower (p.byteval 'P' 0 % 256))]) ∧
      (v.value_byte % 256 = 3 →
        M2002 th p r = [Effect.call (Call.SetCrossLightCAN (p.byteval 'P' 0 % 256))]) ∧
      (v.value_byte % 256 = 5 →
        M2002 th p r =
          [Effect.call (Call.SetFireSensorSensitivityCAN (p.byteval 'P' 0 % 256))]) ∧
      (v.value_byte % 256 = 9 →
        M2002 th p r =
          [Effect.call (Call.SetFireSensorReportTime (p.ushortval 'P' 0 % 65536))]) ∧
      (p.param 'P' = Param.absent →
        p.floatval 'P' 0 = 0 ∧ p.byteval 'P' 0 % 256 = 0 ∧ p.ushortval 'P' 0 % 65536 = 0) ∧
      (∀ w, p.param 'P' = Param.val w →
        p.floatval 'P' 0 = w.value_float ∧ p.byteval 'P' 0 % 256 = w.value_byte % 256 ∧
          p.ushortval 'P' 0 % 65536 = w.value_ushort % 65536) := by
  have s1 : p.seen 'S' = false := by simp [GCodeParser.seen, hS]
  have s2 : p.seenval 'L' = false := by simp [GCodeParser.seenval, hL]
  have s3 : p.seenval 'Y' = false := by simp [GCodeParser.seenval, hY]
  have s4 : p.seen 'G' = false := by simp [GCodeParser.seen, hG]
  have s5 : p.seenval 'T' = true := by simp [GCodeParser.seenval, hT]
  have hb : p.byteval 'T' 0 = v.value_byte % 256 := by simp [GCodeParser.byteval, hT]
  refine ⟨?_, ?_, ?_, ?_, ?_, ?_, ?_⟩
  · intro hc
    simp [M2002, h, s1, s2, s3, s4, s5, hb, hc]
  · intro hc
    simp [M2002, h, s1, s2, s3, s4, s5, hb, hc]
  · intro hc
    simp [M2002, h, s1, s2, s3, s4, s5, hb, hc]
  · intro hc
    simp [M2002, h, s1, s2, s3, s4, s5, hb, hc]
  · intro hc
    simp [M2002, h, s1, s2, s3, s4, s5, hb, hc]
  · intro hP
    simp [GCodeParser.floatval, GCodeParser.byteval, GCodeParser.ushortval, hP]
  · intro w hP
    simp [GCodeParser.floatval, GCodeParser.byteval, GCodeParser.ushortval, hP]

/-- C8 at `M2002 T1 P12.5` on a 10W laser: the one call `SetOutput(12.5)`, no other call
and no line. -/
theorem M2002_fire_and_log_witness :
    M2002 ToolHead.MODULE_TOOLHEAD_LASER_10W cmdT1P idle =
      [Effect.call (Call.SetOutput 12.5)] :=
  (M2002_fire_and_log ToolHead.MODULE_TOOLHEAD_LASER_10W cmdT1P idle (num 1)
    (by decide) (by decide) (by decide) (by decide) (by decide) (by decide)).1 (by decide)

/-- C9, counterexample: on a 10W laser the commands `M2002 L`, `M2002 Y` and `M2002 T`,
whose parameter has no value, make no proxy call and write no line. -/
theorem M2002_bare_L_Y_T_do_nothing :
    M2002 ToolHead.MODULE_TOOLHEAD_LASER_10W (noParams.add 'L' Param.bare) idle = [] ∧
    M2002 ToolHead.MODULE_TOOLHEAD_LASER_10W (noParams.add 'Y' Param.bare) idle = [] ∧
    M2002 ToolHead.MODULE_TOOLHEAD_LASER_10W (noParams.add 'T' Param.bare) idle = [] := by
  decide

/-- C9, amended: for a request that passes the guard, `L` with a value `b` yields exactly
one `SetAutoFocusLight` call with a 1-byte event carrying `b`; `L` without a
value yields no `SetAutoFocusLight` call, `Y` without a value no
`SetOnlineSyncId` call, and `T` without a value executes no sub-command (no
call, no value or error line). -/
theorem M2002_valued_parameters (th : ToolHead) (p : GCodeParser) (r : ToolHeadLaser)
    (h : th ≠ ToolHead.MODULE_TOOLHEAD_LASER) :
    (∀ v, p.param 'L' = Param.val v →
        callsOf TopParam.L (M2002 th p r) =
          [Call.SetAutoFocusLight
            { op_code := 2, id := 9, length := 1, data := some [v.value_byte % 256] }]) ∧
      (p.param 'L' = Param.bare → callsOf TopParam.L (M2002 th p r) = []) ∧
      (p.param 'Y' = Param.bare → callsOf TopParam.Y (M2002 th p r) = []) ∧
      (p.param 'T' = Param.bare →
        callsOf TopParam.T (M2002 th p r) = [] ∧ valueLines (M2002 th p r) = [] ∧
          errorLines (M2002 th p r) = []) := by
  simp only [callsOf_M2002 th p r h, valueLines_M2002 th p r h, errorLines_M2002 th p r h]
  refine ⟨?_, ?_, ?_, ?_⟩
  · intro v hv
    simp [lCalls, hv]
  · intro hv
    simp [lCalls, hv]
  · intro hv
    simp [yCalls, hv]
  · intro hv
    simp [tCalls, tLogs, hv]

/-- C9, amended, at `M2002 S1 L1 Y258 G` on a 10W laser: one `SetAutoFocusLight` call
carrying the byte 1. -/
theorem M2002_valued_parameters_witness :
    callsOf TopParam.L (M2002 ToolHead.MODULE_TOOLHEAD_LASER_10W cmdSLYG idle) =
      [Call.SetAutoFocusLight { op_code := 2, id := 9, length := 1, data := some [1] }] :=
  (M2002_valued_parameters ToolHead.MODULE_TOOLHEAD_LASER_10W cmdSLYG idle
    (by decide)).1 (num 1) (by decide)

/-- C10: the top-level parameters that the proxy calls of a run belong to form a
subsequence of S, L, Y, G, T (so the calls come in that order, at most one
per parameter), and two runs on the same request with different proxy
answers make the same calls with the same arguments. -/
theorem M2002_fixed_order (th : ToolHead) (p : GCodeParser) (r r' : ToolHeadLaser) :
    List.Sublist ((calls (M2002 th p r)).map fun c => c.method.param)
        [TopParam.S, TopParam.L, TopParam.Y, TopParam.G, TopParam.T] ∧
      calls (M2002 th p r) = calls (M2002 th p r') := by
  by_cases h : th = ToolHead.MODULE_TOOLHEAD_LASER
  · subst h
    simp [M2002_LASER, calls]
  · refine ⟨?_, by rw [calls_M2002 th p r h, calls_M2002 th p r' h]⟩
    rw [calls_M2002 th p r h]
    have hs : (sCalls p).map (fun c => c.method.param) = [] ∨
        (sCalls p).map (fun c => c.method.param) = [TopParam.S] := by
      unfold sCalls
      split
      · simp
      · simp [Call.method, Method.param]
      · split <;> simp [Call.method, Method.param]
    have hl : (lCalls p).map (fun c => c.method.param) = [] ∨
        (lCalls p).map (fun c => c.method.param) = [TopParam.L] := by
      unfold lCalls
      split <;> simp [Call.method, Method.param]
    have hy : (yCalls p).map (fun c => c.method.param) = [] ∨
        (yCalls p).map (fun c => c.method.param) = [TopParam.Y] := by
      unfold yCalls
      split <;> simp [Call.method, Method.param]
    have hg : (gCalls p).map (fun c => c.method.param) = [] ∨
        (gCalls p).map (fun c => c.method.param) = [TopParam.G] := by
      unfold gCalls
      split <;> simp [Call.method, Method.param]
    have ht : (tCalls p).map (fun c => c.method.param) = [] ∨
        (tCalls p).map (fun c => c.method.param) = [TopParam.T] := by
      unfold tCalls
      split
      · rename_i v _
        generalize v.value_byte % 256 = n
        rcases n with _ | _ | _ | _ | _ | _ | _ | _ | _ | _ | _ | n <;>
          simp [tCall, Call.method, Method.param]
      · simp
    simp only [List.map_append]
    rcases hs with hs | hs <;> rcases hl with hl | hl <;> rcases hy with hy | hy <;>
      rcases hg with hg | hg <;> rcases ht with ht | ht <;>
      rw [hs, hl, hy, hg, ht] <;> decide

end Snapmaker
